import Mathlib

/-!
# The execution engine of `cpp/src/db/ExecutionEngineImpl.cpp`

A shallow embedding of `zilliz::milvus::engine::ExecutionEngineImpl`.

* Index objects live in a heap and are reached through nullable pointers
  (`VecIndexPtr` is a `std::shared_ptr`), so an object shared between an engine
  and the cache is one object.
* The process-wide collaborators (cache manager, persistent store, metrics sink,
  server configuration) are fields of `World`; every call into one of them, and
  every mutating call on an index object, is appended to `World.log`.
* A C++ method on `this` becomes a function of the engine record and the world
  that returns the method's result, the engine and the world; dereferencing a
  null pointer and a failing read of the store end the call with a `Fault`.
* `ENGINE_LOG_DEBUG` / `ENGINE_LOG_ERROR` lines have no effect on the state and
  are left out. `Search` takes part in no statement below and is not embedded.
-/

namespace Engine

/-! ## Data model -/

/-- A `float` is carried as its 32-bit pattern: the engine moves vector
components around and never computes with them. -/
abbrev float := Nat

/-- The tags of `enum class EngineType` that the source names; `INVALID` stands
for every tag that reaches the `default:` branch of `CreatetVecIndex`. -/
inductive EngineType
  | INVALID
  | FAISS_IDMAP
  | FAISS_IVFFLAT_GPU
  | FAISS_IVFFLAT_CPU
  | SPTAG_KDT_RNT_CPU
  deriving DecidableEq, Repr

/-- The tags of `enum class IndexType` that `CreatetVecIndex` passes to the
index factory. -/
inductive IndexType
  | FAISS_IDMAP
  | FAISS_IVFFLAT_MIX
  | FAISS_IVFFLAT_CPU
  | SPTAG_KDT_RNT_CPU
  deriving DecidableEq, Repr

/-- The result type `Status`: `Status::OK()` or `Status::Error(msg)`. -/
inductive Status
  | OK
  | Error (msg : String)
  deriving DecidableEq, Repr

/-- A `Config::object`: the key/value pairs handed to an index call. -/
abbrev Config := List (String × Int)

/-- Value stored under `key`, or `d` when the key is absent. -/
def Config.get_with_default (cfg : Config) (key : String) (d : Int) : Int :=
  (cfg.lookup key).getD d

/-- Modelled from the spec: the Index Object (classes `VecIndex` and `BFIndex` of
`wrapper/knowhere`, not under src/). It has an element count and a
dimensionality; `xb` and `xids` are the raw vector buffer and the parallel id
array, which only a flat-type object (`type = FAISS_IDMAP`, class `BFIndex`)
exposes; `gpu_id` is the device a bulk build was given. -/
structure VecIndex where
  type : IndexType
  dim : Nat
  ntotal : Nat
  xb : List float
  xids : List Int
  gpu_id : Int
  deriving DecidableEq, Repr

/-- Modelled from the spec: the Index Factory `GetVecIndexFactory` (not under
src/) returns a freshly constructed, empty object of the requested type. -/
def GetVecIndexFactory (t : IndexType) : VecIndex :=
  { type := t, dim := 0, ntotal := 0, xb := [], xids := [], gpu_id := 0 }

namespace VecIndex

/-- Modelled from the spec: `count()` of the Index Object capability set. -/
def Count (o : VecIndex) : Nat := o.ntotal

/-- Modelled from the spec: `dimension()` of the Index Object capability set. -/
def Dimension (o : VecIndex) : Nat := o.dim

/-- Whether the dynamic type of the object is `BFIndex`, which is what
`std::dynamic_pointer_cast<BFIndex>` tests. -/
def isBFIndex (o : VecIndex) : Bool := o.type == IndexType.FAISS_IDMAP

/-- Modelled from the spec: `rawVectors()`, flat-type only. -/
def GetRawVectors (o : VecIndex) : List float := o.xb

/-- Modelled from the spec: `rawIds()`, flat-type only. -/
def GetRawIds (o : VecIndex) : List Int := o.xids

/-- Modelled from the spec: `add(n, vectors, ids, config)`. A flat object appends
the `n` vectors (of the dimension named by the `dim` entry of `config`, its own
dimension when the entry is absent) read from the caller's buffers together
with their ids. The capability matrix gives the optimized types no incremental
add: such an object is left as it is. -/
def Add (o : VecIndex) (n : Nat) (xdata : List float) (xids : List Int) (cfg : Config) :
    VecIndex :=
  if o.isBFIndex then
    let d := (cfg.get_with_default "dim" (Int.ofNat o.dim)).toNat
    { o with ntotal := o.ntotal + n, xb := o.xb ++ xdata.take (n * d),
             xids := o.xids ++ xids.take n }
  else o

/-- Modelled from the spec: `BFIndex::Build(dimension)` sizes an empty flat
object to `dimension`. -/
def Build (o : VecIndex) (dimension : Nat) : VecIndex :=
  { o with dim := dimension }

/-- Modelled from the spec: `build(n, vectors, ids, config)`, the bulk build of
an object from `n` vectors and ids with the tuning parameters of `config`
(`dim` and `gpu_id`). -/
def BuildAll (o : VecIndex) (n : Nat) (xdata : List float) (xids : List Int) (cfg : Config) :
    VecIndex :=
  let d := (cfg.get_with_default "dim" (Int.ofNat o.dim)).toNat
  { o with dim := d, ntotal := n, xb := xdata.take (n * d), xids := xids.take n,
           gpu_id := cfg.get_with_default "gpu_id" o.gpu_id }

end VecIndex

/-- A `VecIndexPtr` is null (`none`) or the heap address of an index object. -/
abbrev VecIndexPtr := Option Nat

/-- One call into a collaborator, or one mutating call on an index object. -/
inductive Event
  | GetIndex (key : String)
  | InsertItem (key : String) (index : VecIndexPtr)
  | read_index (location : String)
  | write_index (index : VecIndexPtr) (location : String)
  | FaissDiskLoadDurationSecondsHistogramObserve (value : Int)
  | FaissDiskLoadSizeBytesHistogramObserve (value : Nat)
  | FaissDiskLoadIOSpeedGaugeSet (total_size : Nat) (total_time : Int)
  | GetConfig (name : String)
  | GetInt32Value (key : String) (default_value : Int)
  | Add (index : Nat) (n : Nat) (xdata : List float) (xids : List Int) (cfg : Config)
  | BuildAll (index : Nat) (n : Nat) (xdata : List float) (xids : List Int) (cfg : Config)
  deriving DecidableEq, Repr

/-- A configuration node: the integer settings of one section. -/
abbrev ConfigNode := List (String × Int)

/-- Everything outside the engine object: the heap of index objects, the cache
manager's table, the persistent store, the server configuration, and the log of
calls made so far. -/
structure World where
  heap : List VecIndex
  cache : List (String × VecIndexPtr)
  disk : List (String × VecIndex)
  config : List (String × ConfigNode)
  log : List Event
  deriving DecidableEq, Repr

/-- How a call ends when it does not return: a null pointer was dereferenced, or
the persistent store failed to read. -/
inductive Fault
  | NullDereference
  | StorageReadFailure
  deriving DecidableEq, Repr

namespace World

/-- Append one call to the log. -/
def emit (w : World) (e : Event) : World :=
  { w with log := w.log ++ [e] }

/-- The object a pointer refers to; nothing for the null pointer. -/
def deref (w : World) (p : VecIndexPtr) : Option VecIndex :=
  match p with
  | none => none
  | some a => w.heap[a]?

/-- Place a new object on the heap and return the pointer to it. -/
def alloc (w : World) (o : VecIndex) : VecIndexPtr × World :=
  (some w.heap.length, { w with heap := w.heap ++ [o] })

/-- The call `p->Add(n, xdata, xids, cfg)` through a pointer. -/
def Add (w : World) (p : VecIndexPtr) (n : Nat) (xdata : List float) (xids : List Int)
    (cfg : Config) : Except Fault World :=
  match p with
  | none => Except.error Fault.NullDereference
  | some a =>
    match w.heap[a]? with
    | none => Except.error Fault.NullDereference
    | some o =>
      Except.ok { w with heap := w.heap.set a (o.Add n xdata xids cfg),
                         log := w.log ++ [Event.Add a n xdata xids cfg] }

/-- The call `p->BuildAll(n, xdata, xids, cfg)` through a pointer. -/
def BuildAll (w : World) (p : VecIndexPtr) (n : Nat) (xdata : List float) (xids : List Int)
    (cfg : Config) : Except Fault World :=
  match p with
  | none => Except.error Fault.NullDereference
  | some a =>
    match w.heap[a]? with
    | none => Except.error Fault.NullDereference
    | some o =>
      Except.ok { w with heap := w.heap.set a (o.BuildAll n xdata xids cfg),
                         log := w.log ++ [Event.BuildAll a n xdata xids cfg] }

/-- The call `std::static_pointer_cast<BFIndex>(p)->Build(dimension)`. -/
def Build (w : World) (p : VecIndexPtr) (dimension : Nat) : Except Fault World :=
  match p with
  | none => Except.error Fault.NullDereference
  | some a =>
    match w.heap[a]? with
    | none => Except.error Fault.NullDereference
    | some o => Except.ok { w with heap := w.heap.set a (o.Build dimension) }

/-- The cast `std::dynamic_pointer_cast<BFIndex>(p)`: the same pointer when the
object is flat-type, the null pointer otherwise. -/
def dynamic_pointer_cast_BFIndex (w : World) (p : VecIndexPtr) : VecIndexPtr :=
  match w.deref p with
  | none => none
  | some o => if o.isBFIndex then p else none

/-- The call `p->GetRawVectors()` through a pointer. -/
def GetRawVectors (w : World) (p : VecIndexPtr) : Except Fault (List float) :=
  match w.deref p with
  | none => Except.error Fault.NullDereference
  | some o => Except.ok o.GetRawVectors

/-- The call `p->GetRawIds()` through a pointer. -/
def GetRawIds (w : World) (p : VecIndexPtr) : Except Fault (List Int) :=
  match w.deref p with
  | none => Except.error Fault.NullDereference
  | some o => Except.ok o.GetRawIds

/-- The call `p->Count()` through a pointer. -/
def Count (w : World) (p : VecIndexPtr) : Except Fault Nat :=
  match w.deref p with
  | none => Except.error Fault.NullDereference
  | some o => Except.ok o.Count

/-- The call `p->Dimension()` through a pointer. -/
def Dimension (w : World) (p : VecIndexPtr) : Except Fault Nat :=
  match w.deref p with
  | none => Except.error Fault.NullDereference
  | some o => Except.ok o.Dimension

end World

/-! ## Collaborators -/

/-- Modelled from the spec: `get(key)` of the Cache Gateway
(`cache::CpuCacheMgr::GetIndex`, not under src/): the pointer stored under the
key, the null pointer when there is none. -/
def CpuCacheMgr_GetIndex (w : World) (key : String) : VecIndexPtr × World :=
  ((w.cache.lookup key).getD none, w.emit (Event.GetIndex key))

/-- Modelled from the spec: `insert(key, obj)` of the Cache Gateway
(`cache::CpuCacheMgr::InsertItem`, not under src/): stores the pointer under
the key, overwriting any prior entry for it. -/
def CpuCacheMgr_InsertItem (w : World) (key : String) (index : VecIndexPtr) : World :=
  { w with cache := (key, index) :: w.cache.filter (fun kv => kv.1 != key),
           log := w.log ++ [Event.InsertItem key index] }

/-- Modelled from the spec: `read(location)` of the Persistence Gateway
(`read_index`, not under src/): a new object holding what is stored at the
location; fails with a storage error when nothing is stored there. -/
def read_index (w : World) (location : String) : Except Fault (VecIndexPtr × World) :=
  let w1 := w.emit (Event.read_index location)
  match w1.disk.lookup location with
  | none => Except.error Fault.StorageReadFailure
  | some o => Except.ok (w1.alloc o)

/-- Modelled from the spec: `write(location, obj)` of the Persistence Gateway
(`write_index`, not under src/): stores the contents of the object at the
location. -/
def write_index (w : World) (index : VecIndexPtr) (location : String) : Except Fault World :=
  match w.deref index with
  | none => Except.error Fault.NullDereference
  | some o =>
    Except.ok { w with disk := (location, o) :: w.disk.filter (fun kv => kv.1 != location),
                       log := w.log ++ [Event.write_index index location] }

/-- Modelled from the spec: `ServerConfig::GetConfig(name)`, the node of one
section (an empty node when the section is absent). -/
def ServerConfig_GetConfig (w : World) (name : String) : ConfigNode × World :=
  ((w.config.lookup name).getD [], w.emit (Event.GetConfig name))

/-- Modelled from the spec: `getInt(section, key, default)` of the Configuration
Provider (`ConfigNode::GetInt32Value`): the value of the key, the default when
the key is absent. -/
def ConfigNode_GetInt32Value (node : ConfigNode) (w : World) (key : String)
    (default_value : Int) : Int × World :=
  ((node.lookup key).getD default_value, w.emit (Event.GetInt32Value key default_value))

/-- Modelled from the spec: the wall-clock duration of the read, the macro
`METRICS_MICROSECONDS(a, b)` of `Metrics.h` (not under src/): the microseconds
from `a` to `b`. -/
def METRICS_MICROSECONDS (a b : Int) : Int := b - a

/-! ## The engine -/

/-- The data members of `ExecutionEngineImpl`. -/
structure ExecutionEngineImpl where
  index_ : VecIndexPtr
  location_ : String
  dim : Nat
  build_type : EngineType
  current_type : EngineType
  gpu_num : Int
  nprobe_ : Int
  deriving DecidableEq, Repr

/-- The number of values of `size_t`, a 64-bit unsigned integer. -/
def SIZE_T : Nat := 2 ^ 64

/-- The value of `sizeof(float)`. -/
def sizeof_float : Nat := 4

namespace ExecutionEngineImpl

/-- `ExecutionEngineImpl::CreatetVecIndex`. -/
def CreatetVecIndex (w : World) (type : EngineType) : VecIndexPtr × World :=
  match type with
  | EngineType.FAISS_IDMAP => w.alloc (GetVecIndexFactory IndexType.FAISS_IDMAP)
  | EngineType.FAISS_IVFFLAT_GPU => w.alloc (GetVecIndexFactory IndexType.FAISS_IVFFLAT_MIX)
  | EngineType.FAISS_IVFFLAT_CPU => w.alloc (GetVecIndexFactory IndexType.FAISS_IVFFLAT_CPU)
  | EngineType.SPTAG_KDT_RNT_CPU => w.alloc (GetVecIndexFactory IndexType.SPTAG_KDT_RNT_CPU)
  | _ => (none, w)

/-- The constructor `ExecutionEngineImpl(uint16_t dimension, location, type)`.
The members it does not initialise (`gpu_num`, `nprobe_`) keep the values of
`self`, the object as its in-class initialisers (in the header, not under src/)
leave it. -/
def ExecutionEngineImpl_dimension (self : ExecutionEngineImpl) (w : World) (dimension : Nat)
    (location : String) (type : EngineType) : Except Fault (ExecutionEngineImpl × World) :=
  let self1 := { self with location_ := location, dim := dimension, build_type := type }
  let (index, w1) := CreatetVecIndex w EngineType.FAISS_IDMAP
  let self2 := { self1 with index_ := index }
  let self3 := { self2 with current_type := EngineType.FAISS_IDMAP }
  match w1.Build self3.index_ dimension with
  | Except.error f => Except.error f
  | Except.ok w2 => Except.ok (self3, w2)

/-- The constructor `ExecutionEngineImpl(VecIndexPtr index, location, type)`.
The members it does not initialise (`dim`, `gpu_num`, `nprobe_`) keep the
values of `self`. -/
def ExecutionEngineImpl_index (self : ExecutionEngineImpl) (index : VecIndexPtr)
    (location : String) (type : EngineType) : ExecutionEngineImpl :=
  let self1 := { self with index_ := index, location_ := location, build_type := type }
  { self1 with current_type := type }

/-- `ExecutionEngineImpl::AddWithIds`; the count `n` is a natural number. -/
def AddWithIds (self : ExecutionEngineImpl) (w : World) (n : Nat) (xdata : List float)
    (xids : List Int) : Except Fault (Status × ExecutionEngineImpl × World) :=
  match w.Add self.index_ n xdata xids [("dim", Int.ofNat self.dim)] with
  | Except.error f => Except.error f
  | Except.ok w1 => Except.ok (Status.OK, self, w1)

/-- `ExecutionEngineImpl::Count`. -/
def Count (self : ExecutionEngineImpl) (w : World) : Except Fault Nat :=
  w.Count self.index_

/-- `ExecutionEngineImpl::Dimension`. -/
def Dimension (self : ExecutionEngineImpl) (w : World) : Except Fault Nat :=
  w.Dimension self.index_

/-- `ExecutionEngineImpl::Size`: both the product and the multiplication by
`sizeof(float)` are `size_t` arithmetic. -/
def Size (self : ExecutionEngineImpl) (w : World) : Except Fault Nat :=
  match self.Count w with
  | Except.error f => Except.error f
  | Except.ok c =>
    match self.Dimension w with
    | Except.error f => Except.error f
    | Except.ok d => Except.ok (((c * d) % SIZE_T) * sizeof_float % SIZE_T)

/-- `ExecutionEngineImpl::PhysicalSize`. -/
def PhysicalSize (self : ExecutionEngineImpl) (w : World) : Except Fault Nat :=
  match self.Count w with
  | Except.error f => Except.error f
  | Except.ok c =>
    match self.Dimension w with
    | Except.error f => Except.error f
    | Except.ok d => Except.ok (((c * d) % SIZE_T) * sizeof_float % SIZE_T)

/-- `ExecutionEngineImpl::Serialize`. -/
def Serialize (self : ExecutionEngineImpl) (w : World) :
    Except Fault (Status × ExecutionEngineImpl × World) :=
  match write_index w self.index_ self.location_ with
  | Except.error f => Except.error f
  | Except.ok w1 => Except.ok (Status.OK, self, w1)

/-- `ExecutionEngineImpl::Cache`. -/
def Cache (self : ExecutionEngineImpl) (w : World) : Status × ExecutionEngineImpl × World :=
  (Status.OK, self, CpuCacheMgr_InsertItem w self.location_ self.index_)

/-- `ExecutionEngineImpl::Load`. The two readings of `METRICS_NOW_TIME` are the
arguments `start_time` and `end_time`; the quotient
`total_size / double(total_time)` handed to the throughput gauge is logged as
the pair of its operands. -/
def Load (self : ExecutionEngineImpl) (w : World) (start_time end_time : Int) :
    Except Fault (Status × ExecutionEngineImpl × World) :=
  let (index, w1) := CpuCacheMgr_GetIndex w self.location_
  let self1 := { self with index_ := index }
  let to_cache := false
  let read : Except Fault (ExecutionEngineImpl × World × Bool) :=
    if self1.index_ = none then
      match read_index w1 self1.location_ with
      | Except.error f => Except.error f
      | Except.ok (index2, w2) => Except.ok ({ self1 with index_ := index2 }, w2, true)
    else Except.ok (self1, w1, to_cache)
  match read with
  | Except.error f => Except.error f
  | Except.ok (self2, w2, to_cache) =>
    if to_cache then
      let (_, self3, w3) := self2.Cache w2
      let total_time := METRICS_MICROSECONDS start_time end_time
      let w4 := w3.emit (Event.FaissDiskLoadDurationSecondsHistogramObserve total_time)
      match self3.Size w4 with
      | Except.error f => Except.error f
      | Except.ok total_size =>
        let w5 := w4.emit (Event.FaissDiskLoadSizeBytesHistogramObserve total_size)
        let w6 := w5.emit (Event.FaissDiskLoadIOSpeedGaugeSet total_size total_time)
        Except.ok (Status.OK, self3, w6)
    else Except.ok (Status.OK, self2, w2)

/-- `ExecutionEngineImpl::Merge`. -/
def Merge (self : ExecutionEngineImpl) (w : World) (location : String) :
    Except Fault (Status × ExecutionEngineImpl × World) :=
  if location = self.location_ then
    Except.ok (Status.Error "Cannot Merge Self", self, w)
  else
    let (to_merge0, w1) := CpuCacheMgr_GetIndex w location
    let resolved : Except Fault (VecIndexPtr × World) :=
      if to_merge0 = none then read_index w1 location else Except.ok (to_merge0, w1)
    match resolved with
    | Except.error f => Except.error f
    | Except.ok (to_merge, w2) =>
      match w2.dynamic_pointer_cast_BFIndex to_merge with
      | some a =>
        let file_index : VecIndexPtr := some a
        match w2.Count file_index, w2.GetRawVectors file_index, w2.GetRawIds file_index with
        | Except.ok n, Except.ok xb, Except.ok ids =>
          match w2.Add self.index_ n xb ids [] with
          | Except.error f => Except.error f
          | Except.ok w3 => Except.ok (Status.OK, self, w3)
        | _, _, _ => Except.error Fault.NullDereference
      | none => Except.ok (Status.Error "file index type is not idmap", self, w2)

/-- `ExecutionEngineImpl::BuildIndex`. The new engine is returned first, then
`this`. `blank` is an engine object as the in-class initialisers leave it,
which the constructor of the new engine starts from. -/
def BuildIndex (self : ExecutionEngineImpl) (w : World) (location : String)
    (blank : ExecutionEngineImpl) :
    Except Fault (ExecutionEngineImpl × ExecutionEngineImpl × World) :=
  let from_index := w.dynamic_pointer_cast_BFIndex self.index_
  let (to_index, w1) := CreatetVecIndex w self.build_type
  match self.Count w1, w1.GetRawVectors from_index, w1.GetRawIds from_index,
        self.Dimension w1 with
  | Except.ok n, Except.ok xb, Except.ok ids, Except.ok d =>
    match w1.BuildAll to_index n xb ids [("dim", Int.ofNat d), ("gpu_id", self.gpu_num)] with
    | Except.error f => Except.error f
    | Except.ok w2 =>
      Except.ok (ExecutionEngineImpl_index blank to_index location self.build_type, self, w2)
  | _, _, _, _ => Except.error Fault.NullDereference

/-- `ExecutionEngineImpl::Init`. The constants `CONFIG_SERVER`, `CONFIG_ENGINE`
and `CONFIG_NPROBE` are declared in `ServerConfig.h` (not under src/) and are
parameters here. -/
def Init (self : ExecutionEngineImpl) (w : World)
    (CONFIG_SERVER CONFIG_ENGINE CONFIG_NPROBE : String) :
    Status × ExecutionEngineImpl × World :=
  let (server_config, w1) := ServerConfig_GetConfig w CONFIG_SERVER
  let (gpu, w2) := ConfigNode_GetInt32Value server_config w1 "gpu_index" 0
  let self1 := { self with gpu_num := gpu }
  match self1.build_type with
  | EngineType.FAISS_IVFFLAT_GPU | EngineType.FAISS_IVFFLAT_CPU =>
    let (engine_config, w3) := ServerConfig_GetConfig w2 CONFIG_ENGINE
    let (np, w4) := ConfigNode_GetInt32Value engine_config w3 CONFIG_NPROBE 1000
    (Status.OK, { self1 with nprobe_ := np }, w4)
  | _ => (Status.OK, self1, w2)

end ExecutionEngineImpl

/-! ## Vocabulary of the statements -/

/-- Whether a logged call is a read of the persistent store. -/
def Event.isStoreRead : Event → Bool
  | Event.read_index _ => true
  | _ => false

/-- Whether a logged call is a cache insert. -/
def Event.isCacheInsert : Event → Bool
  | Event.InsertItem _ _ => true
  | _ => false

/-- Whether a logged call is the load-duration observation. -/
def Event.isLoadDuration : Event → Bool
  | Event.FaissDiskLoadDurationSecondsHistogramObserve _ => true
  | _ => false

/-- Whether a logged call is the load-size observation. -/
def Event.isLoadSize : Event → Bool
  | Event.FaissDiskLoadSizeBytesHistogramObserve _ => true
  | _ => false

/-- Whether a logged call is the throughput update. -/
def Event.isLoadSpeed : Event → Bool
  | Event.FaissDiskLoadIOSpeedGaugeSet _ _ => true
  | _ => false

/-- Whether a logged call is an add on an index object. -/
def Event.isAdd : Event → Bool
  | Event.Add _ _ _ _ _ => true
  | _ => false

/-- The index object a location resolves to, cache first, then the persistent
store. -/
def World.resolve (w : World) (location : String) : Option VecIndex :=
  match (w.cache.lookup location).getD none with
  | some a => w.heap[a]?
  | none => w.disk.lookup location

/-- The integer setting `key` of section `name`, `d` when it is absent. -/
def World.setting (w : World) (name key : String) (d : Int) : Int :=
  (((w.config.lookup name).getD []).lookup key).getD d

/-- The `Status` a call returned, when it returned. -/
def returnedStatus {α : Type} : Except Fault (Status × α) → Option Status
  | Except.ok r => some r.1
  | Except.error _ => none

/-- The index type the factory is asked for, for each recognized engine type. -/
def EngineType.indexType : EngineType → Option IndexType
  | EngineType.FAISS_IDMAP => some IndexType.FAISS_IDMAP
  | EngineType.FAISS_IVFFLAT_GPU => some IndexType.FAISS_IVFFLAT_MIX
  | EngineType.FAISS_IVFFLAT_CPU => some IndexType.FAISS_IVFFLAT_CPU
  | EngineType.SPTAG_KDT_RNT_CPU => some IndexType.SPTAG_KDT_RNT_CPU
  | EngineType.INVALID => none

/-- A sequence of `AddWithIds` calls, each given by its arguments
`(n, xdata, xids)`, applied in order to an engine. -/
def AddWithIds_seq (self : ExecutionEngineImpl) (w : World) :
    List (Nat × List float × List Int) → Except Fault (ExecutionEngineImpl × World)
  | [] => Except.ok (self, w)
  | (n, xdata, xids) :: rest =>
    match self.AddWithIds w n xdata xids with
    | Except.error f => Except.error f
    | Except.ok (_, self1, w1) => AddWithIds_seq self1 w1 rest

/-- The number of vectors a sequence of `AddWithIds` calls adds. -/
def totalAdded (calls : List (Nat × List float × List Int)) : Nat :=
  (calls.map (fun c => c.1)).sum

/-- Whether a build type is one of the two IVF variants. -/
def EngineType.isIVF : EngineType → Bool
  | EngineType.FAISS_IVFFLAT_GPU => true
  | EngineType.FAISS_IVFFLAT_CPU => true
  | _ => false

/-! ## Concrete engines and worlds -/

/-- An engine object before any constructor has run. -/
def blankEngine : ExecutionEngineImpl :=
  { index_ := none, location_ := "", dim := 0, build_type := EngineType.INVALID,
    current_type := EngineType.INVALID, gpu_num := 0, nprobe_ := 0 }

/-- A built inverted-file index object holding one vector of dimension 2. -/
def ivfObject : VecIndex :=
  { type := IndexType.FAISS_IVFFLAT_CPU, dim := 2, ntotal := 1, xb := [5, 6], xids := [9],
    gpu_id := 0 }

/-- A flat index object holding two vectors of dimension 2. -/
def flatObject : VecIndex :=
  { type := IndexType.FAISS_IDMAP, dim := 2, ntotal := 2, xb := [1, 2, 3, 4], xids := [10, 11],
    gpu_id := 0 }

/-- A second flat index object, holding one vector of dimension 2. -/
def otherFlatObject : VecIndex :=
  { type := IndexType.FAISS_IDMAP, dim := 2, ntotal := 1, xb := [7, 8], xids := [20],
    gpu_id := 0 }

/-- A world with the inverted-file object at address 0 and the flat object at
address 1; the store holds the inverted-file object at `"ivf"` and the second
flat object at `"other"`, and the cache holds the flat object under `"flat"`. -/
def sampleWorld : World :=
  { heap := [ivfObject, flatObject], cache := [("flat", some 1)],
    disk := [("ivf", ivfObject), ("other", otherFlatObject)],
    config := [("server_config", [("gpu_index", 3)]), ("engine_config", [("nprobe", 16)])],
    log := [] }

/-- An engine wrapping the inverted-file object of `sampleWorld`. -/
def ivfEngine : ExecutionEngineImpl :=
  ExecutionEngineImpl.ExecutionEngineImpl_index { blankEngine with dim := 2 } (some 0) "seg_ivf"
    EngineType.FAISS_IVFFLAT_CPU

/-- An engine wrapping the flat object of `sampleWorld`, set to build an
inverted-file index. -/
def flatEngine : ExecutionEngineImpl :=
  { ExecutionEngineImpl.ExecutionEngineImpl_index blankEngine (some 1) "flat"
      EngineType.FAISS_IVFFLAT_CPU with current_type := EngineType.FAISS_IDMAP, dim := 2 }

/-! ## Theorems -/

open ExecutionEngineImpl

/-- C1: `Merge` with the engine's own location returns the error
`"Cannot Merge Self"` (the self-merge error). The engine and the whole world,
its log of cache and store calls included, come back as they were, so neither
the cache nor the store was consulted and the index object, hence `Count()`,
is the same after the call as before it. -/
theorem Merge_self_forbidden (self : ExecutionEngineImpl) (w : World) :
    self.Merge w self.location_ = Except.ok (Status.Error "Cannot Merge Self", self, w) := by
  simp [Merge]

/-- C7: when the cache holds an index object under the engine's location, `Load`
succeeds, the engine holds the cached object (the very pointer the cache
stores), and the only call made is the cache lookup: no read of the store, no
metrics observation, no cache insert; heap, cache and store are untouched. -/
theorem Load_cache_hit (self : ExecutionEngineImpl) (w : World) (start_time end_time : Int)
    (a : Nat) (hit : w.cache.lookup self.location_ = some (some a)) :
    self.Load w start_time end_time =
      Except.ok (Status.OK, { self with index_ := some a },
                 { w with log := w.log ++ [Event.GetIndex self.location_] }) := by
  simp [Load, CpuCacheMgr_GetIndex, hit, World.emit]

/-- Witness of C7: the engine at `"flat"`, whose object `sampleWorld` caches. -/
theorem Load_cache_hit_witness :
    sampleWorld.cache.lookup flatEngine.location_ = some (some 1)
    ∧ flatEngine.Load sampleWorld 100 250 =
        Except.ok (Status.OK, { flatEngine with index_ := some 1 },
                   { sampleWorld with log := sampleWorld.log ++ [Event.GetIndex flatEngine.location_] }) :=
  ⟨by decide, Load_cache_hit flatEngine sampleWorld 100 250 1 (by decide)⟩

/-- C10: `Init` always returns `Status::OK()`, sets `gpu_num` to the `gpu_index`
setting of the general section (0 when absent) whatever the build type, and
changes no other member but `nprobe_`. When the build type is one of the two
IVF variants it sets `nprobe_` to the fan-out setting of the engine section
(1000 when absent); for every other build type `nprobe_` keeps its value and
no engine-tuning setting is read: the calls made are exactly the two reads of
the general section. Nothing but the call log changes outside the engine. -/
theorem Init_reads_config (self : ExecutionEngineImpl) (w : World)
    (CONFIG_SERVER CONFIG_ENGINE CONFIG_NPROBE : String) :
    (self.Init w CONFIG_SERVER CONFIG_ENGINE CONFIG_NPROBE).1 = Status.OK
    ∧ (self.Init w CONFIG_SERVER CONFIG_ENGINE CONFIG_NPROBE).2.1.gpu_num
        = w.setting CONFIG_SERVER "gpu_index" 0
    ∧ (self.Init w CONFIG_SERVER CONFIG_ENGINE CONFIG_NPROBE).2.1.nprobe_ =
        (if self.build_type.isIVF then w.setting CONFIG_ENGINE CONFIG_NPROBE 1000
         else self.nprobe_)
    ∧ (self.Init w CONFIG_SERVER CONFIG_ENGINE CONFIG_NPROBE).2.2.log =
        (if self.build_type.isIVF then
          w.log ++ [Event.GetConfig CONFIG_SERVER, Event.GetInt32Value "gpu_index" 0,
                    Event.GetConfig CONFIG_ENGINE, Event.GetInt32Value CONFIG_NPROBE 1000]
         else w.log ++ [Event.GetConfig CONFIG_SERVER, Event.GetInt32Value "gpu_index" 0])
    ∧ { (self.Init w CONFIG_SERVER CONFIG_ENGINE CONFIG_NPROBE).2.1 with
          gpu_num := self.gpu_num, nprobe_ := self.nprobe_ } = self
    ∧ { (self.Init w CONFIG_SERVER CONFIG_ENGINE CONFIG_NPROBE).2.2 with log := w.log } = w := by
  obtain ⟨index, location, d, build_type, current_type, gpu, np⟩ := self
  cases build_type <;>
    simp [Init, EngineType.isIVF, World.setting, ServerConfig_GetConfig,
      ConfigNode_GetInt32Value, World.emit]

/-- What `AddWithIds` returns on an engine that holds an index object. -/
theorem AddWithIds_eq (self : ExecutionEngineImpl) (w : World) (n : Nat)
    (xdata : List float) (xids : List Int) (a : Nat) (o : VecIndex)
    (hp : self.index_ = some a) (ho : w.heap[a]? = some o) :
    self.AddWithIds w n xdata xids =
      Except.ok (Status.OK, self,
        { w with heap := w.heap.set a (o.Add n xdata xids [("dim", Int.ofNat self.dim)]),
                 log := w.log ++ [Event.Add a n xdata xids [("dim", Int.ofNat self.dim)]] }) := by
  simp [AddWithIds, World.Add, hp, ho]

/-- C4, as the code has it: for an engine that holds an index object of any
type, flat or not, `AddWithIds` makes one `Add` call on that object, with the
engine's `dim` as configuration, and returns `Status::OK()`. -/
theorem AddWithIds_returns_OK (self : ExecutionEngineImpl) (w : World) (n : Nat)
    (xdata : List float) (xids : List Int) (a : Nat) (o : VecIndex)
    (hp : self.index_ = some a) (ho : w.heap[a]? = some o) :
    self.AddWithIds w n xdata xids =
      Except.ok (Status.OK, self,
        { w with heap := w.heap.set a (o.Add n xdata xids [("dim", Int.ofNat self.dim)]),
                 log := w.log ++ [Event.Add a n xdata xids [("dim", Int.ofNat self.dim)]] }) :=
  AddWithIds_eq self w n xdata xids a o hp ho

/-- Witness of C4: the engine wrapping the inverted-file object. -/
theorem AddWithIds_returns_OK_witness :
    ivfEngine.index_ = some 0 ∧ sampleWorld.heap[0]? = some ivfObject
    ∧ ivfEngine.AddWithIds sampleWorld 1 [7, 8] [12] =
      Except.ok (Status.OK, ivfEngine,
        { sampleWorld with
            heap := sampleWorld.heap.set 0 (ivfObject.Add 1 [7, 8] [12] [("dim", Int.ofNat ivfEngine.dim)]),
            log := sampleWorld.log ++ [Event.Add 0 1 [7, 8] [12] [("dim", Int.ofNat ivfEngine.dim)]] }) :=
  ⟨rfl, rfl, AddWithIds_returns_OK ivfEngine sampleWorld 1 [7, 8] [12] 0 ivfObject rfl rfl⟩

/-- Counterexample to C4 as stated: the engine wraps a built inverted-file
object, which is not flat-type, and `AddWithIds` on it returns `Status::OK()`, not
an error result. -/
theorem AddWithIds_nonflat_not_an_error :
    ivfEngine.current_type = EngineType.FAISS_IVFFLAT_CPU
    ∧ (sampleWorld.deref ivfEngine.index_).map VecIndex.isBFIndex = some false
    ∧ returnedStatus (ivfEngine.AddWithIds sampleWorld 1 [7, 8] [12]) = some Status.OK := by
  decide

/-- C5, what the code does on the failing input: for an engine whose index
object is not flat-type the downcast in `BuildIndex` yields the null pointer,
which is dereferenced for the raw vectors; the call ends in a null
dereference and neither an error result nor an engine comes back. -/
theorem BuildIndex_nonflat_null_dereference (self : ExecutionEngineImpl) (w : World)
    (location : String) (blank : ExecutionEngineImpl) (o : VecIndex)
    (ho : w.deref self.index_ = some o) (hnf : o.isBFIndex = false) :
    self.BuildIndex w location blank = Except.error Fault.NullDereference := by
  have hc : w.dynamic_pointer_cast_BFIndex self.index_ = none := by
    simp [World.dynamic_pointer_cast_BFIndex, ho, hnf]
  simp only [BuildIndex, hc]
  simp only [World.GetRawVectors, World.deref]
  split <;> simp_all

/-- Witness of C5: the engine wrapping the inverted-file object. -/
theorem BuildIndex_nonflat_null_dereference_witness :
    sampleWorld.deref ivfEngine.index_ = some ivfObject ∧ ivfObject.isBFIndex = false
    ∧ ivfEngine.BuildIndex sampleWorld "target" blankEngine = Except.error Fault.NullDereference :=
  ⟨rfl, rfl,
    BuildIndex_nonflat_null_dereference ivfEngine sampleWorld "target" blankEngine ivfObject rfl rfl⟩

/-- C2: when the other location (not the engine's own) resolves, cache first and
then by a read of the store, to an index object that is not flat-type, `Merge`
returns the error `"file index type is not idmap"` (the incompatible-source
error). The engine record comes back as it was, the cache table, the store and
the configuration are unchanged, every object that was on the heap keeps its
contents (so the index contents and `Count()` of the engine and the cached
objects are what they were), and the calls made contain no add on any index
and no cache insert. -/
theorem Merge_nonflat_source (self : ExecutionEngineImpl) (w : World) (location : String)
    (src : VecIndex) (hne : location ≠ self.location_)
    (hres : w.resolve location = some src) (hnf : src.isBFIndex = false) :
    ∃ w', self.Merge w location =
        Except.ok (Status.Error "file index type is not idmap", self, w')
      ∧ w'.cache = w.cache ∧ w'.disk = w.disk ∧ w'.config = w.config
      ∧ (∃ extra, w'.heap = w.heap ++ extra)
      ∧ (∀ p o, w.deref p = some o → w'.deref p = some o)
      ∧ (∀ c, self.Count w = Except.ok c → self.Count w' = Except.ok c)
      ∧ (∃ calls, w'.log = w.log ++ calls
          ∧ calls.all (fun e => !e.isAdd && !e.isCacheInsert) = true) := by
  unfold World.resolve at hres
  cases hc : (w.cache.lookup location).getD none with
  | some a =>
    simp only [hc] at hres
    refine ⟨w.emit (Event.GetIndex location), ?_, rfl, rfl, rfl, ⟨[], by simp [World.emit]⟩,
      fun p o h => h, fun c h => h,
      ⟨[Event.GetIndex location], rfl, by simp [Event.isAdd, Event.isCacheInsert]⟩⟩
    simp [Merge, hne, CpuCacheMgr_GetIndex, hc, World.dynamic_pointer_cast_BFIndex, World.deref,
      World.emit, hres, hnf]
  | none =>
    simp only [hc] at hres
    have hpre : ∀ p o, w.deref p = some o →
        World.deref { w with heap := w.heap ++ [src],
                             log := w.log ++ [Event.GetIndex location, Event.read_index location] } p
          = some o := by
      intro p o h
      cases p with
      | none => simp [World.deref] at h
      | some b =>
        simp only [World.deref] at h ⊢
        have hb : b < w.heap.length := by
          by_contra hge
          rw [List.getElem?_eq_none (by omega)] at h
          cases h
        rw [List.getElem?_append_left hb]
        exact h
    refine ⟨{ w with heap := w.heap ++ [src],
                     log := w.log ++ [Event.GetIndex location, Event.read_index location] },
      ?_, rfl, rfl, rfl, ⟨[src], rfl⟩, hpre, ?_,
      ⟨[Event.GetIndex location, Event.read_index location], rfl,
        by simp [Event.isAdd, Event.isCacheInsert]⟩⟩
    · simp [Merge, hne, CpuCacheMgr_GetIndex, hc, read_index, World.alloc,
        World.dynamic_pointer_cast_BFIndex, World.deref, World.emit, hres, hnf]
    · intro c h
      simp only [Count, World.Count] at h ⊢
      cases hd : w.deref self.index_ with
      | none => simp [hd] at h
      | some o =>
        rw [hd] at h
        rw [hpre _ _ hd]
        exact h

/-- Witness of C2: the flat engine of `sampleWorld` merging the location `"ivf"`,
which the store resolves to the inverted-file object. -/
theorem Merge_nonflat_source_witness :
    "ivf" ≠ flatEngine.location_ ∧ sampleWorld.resolve "ivf" = some ivfObject
    ∧ ivfObject.isBFIndex = false
    ∧ ∃ w', flatEngine.Merge sampleWorld "ivf" =
        Except.ok (Status.Error "file index type is not idmap", flatEngine, w')
      ∧ w'.cache = sampleWorld.cache ∧ w'.disk = sampleWorld.disk
      ∧ w'.config = sampleWorld.config
      ∧ (∃ extra, w'.heap = sampleWorld.heap ++ extra)
      ∧ (∀ p o, sampleWorld.deref p = some o → w'.deref p = some o)
      ∧ (∀ c, flatEngine.Count sampleWorld = Except.ok c → flatEngine.Count w' = Except.ok c)
      ∧ (∃ calls, w'.log = sampleWorld.log ++ calls
          ∧ calls.all (fun e => !e.isAdd && !e.isCacheInsert) = true) :=
  ⟨by decide, by decide, by decide,
    Merge_nonflat_source flatEngine sampleWorld "ivf" ivfObject (by decide) (by decide)
      (by decide)⟩

/-- Contents of a flat object after an add of all of a source's raw data. -/
theorem VecIndex.Add_flat_all (obj src : VecIndex) (cfg : Config)
    (hflat : obj.isBFIndex = true) (hids : src.GetRawIds.length ≤ src.Count) :
    (obj.Add src.Count src.GetRawVectors src.GetRawIds cfg).Count = obj.Count + src.Count
    ∧ (obj.Add src.Count src.GetRawVectors src.GetRawIds cfg).GetRawIds
        = obj.GetRawIds ++ src.GetRawIds := by
  simp only [VecIndex.Add, hflat, if_true, VecIndex.Count, VecIndex.GetRawIds,
    VecIndex.GetRawVectors] at hids ⊢
  exact ⟨trivial, by rw [List.take_of_length_le hids]⟩

/-- C3: for an engine holding a flat object `obj` and another location (not the
engine's own) that resolves, cache first and then by a read of the store, to a
flat object `src` with one id per vector, `Merge` returns `Status::OK()`; afterwards
`Count()` is the sum of the two counts, the raw ids of the engine's object are
those of `obj` followed by those of `src` (every id of both is present), the
cache table is unchanged and the calls made contain no cache insert. The ids
need not be disjoint for this. -/
theorem Merge_flat_source (self : ExecutionEngineImpl) (w : World) (location : String)
    (p : Nat) (obj src : VecIndex)
    (hp : self.index_ = some p) (hobj : w.heap[p]? = some obj) (hflat : obj.isBFIndex = true)
    (hne : location ≠ self.location_) (hres : w.resolve location = some src)
    (hsf : src.isBFIndex = true) (hids : src.GetRawIds.length ≤ src.Count) :
    ∃ w' obj', self.Merge w location = Except.ok (Status.OK, self, w')
      ∧ w'.deref self.index_ = some obj'
      ∧ self.Count w' = Except.ok (obj.Count + src.Count)
      ∧ obj'.GetRawIds = obj.GetRawIds ++ src.GetRawIds
      ∧ (∀ i, i ∈ obj.GetRawIds ∨ i ∈ src.GetRawIds → i ∈ obj'.GetRawIds)
      ∧ w'.cache = w.cache
      ∧ (∃ calls, w'.log = w.log ++ calls
          ∧ calls.all (fun e => !e.isCacheInsert) = true) := by
  have hlt : p < w.heap.length := by
    by_contra hge
    rw [List.getElem?_eq_none (by omega)] at hobj
    cases hobj
  obtain ⟨hcount, hraw⟩ := VecIndex.Add_flat_all obj src [] hflat hids
  have hmem : ∀ i, i ∈ obj.GetRawIds ∨ i ∈ src.GetRawIds →
      i ∈ (obj.Add src.Count src.GetRawVectors src.GetRawIds []).GetRawIds := by
    intro i hi
    rw [hraw]
    exact List.mem_append.mpr hi
  unfold World.resolve at hres
  cases hc : (w.cache.lookup location).getD none with
  | some a =>
    simp only [hc] at hres
    refine ⟨{ w with heap := w.heap.set p (obj.Add src.Count src.GetRawVectors src.GetRawIds []),
                     log := w.log ++ [Event.GetIndex location,
                       Event.Add p src.Count src.GetRawVectors src.GetRawIds []] },
      obj.Add src.Count src.GetRawVectors src.GetRawIds [], ?_, ?_, ?_, hraw, hmem, rfl,
      ⟨_, rfl, by simp [Event.isCacheInsert]⟩⟩
    · simp [Merge, hne, CpuCacheMgr_GetIndex, hc, World.dynamic_pointer_cast_BFIndex,
        World.deref, World.emit, hres, hsf, World.Count, World.GetRawVectors, World.GetRawIds,
        World.Add, hp, hobj]
    · simp [World.deref, hp, hlt]
    · simp [Count, World.Count, World.deref, hp, hlt, hcount]
  | none =>
    simp only [hc] at hres
    have hobj2 : (w.heap ++ [src])[p]? = some obj := by
      rw [List.getElem?_append_left hlt]
      exact hobj
    refine ⟨{ w with heap := (w.heap ++ [src]).set p
                       (obj.Add src.Count src.GetRawVectors src.GetRawIds []),
                     log := w.log ++ [Event.GetIndex location, Event.read_index location,
                       Event.Add p src.Count src.GetRawVectors src.GetRawIds []] },
      obj.Add src.Count src.GetRawVectors src.GetRawIds [], ?_, ?_, ?_, hraw, hmem, rfl,
      ⟨_, rfl, by simp [Event.isCacheInsert]⟩⟩
    · simp [Merge, hne, CpuCacheMgr_GetIndex, hc, read_index, World.alloc,
        World.dynamic_pointer_cast_BFIndex, World.deref, World.emit, hres, hsf, World.Count,
        World.GetRawVectors, World.GetRawIds, World.Add, hp, hobj2]
    · have hlt2 : p < (w.heap ++ [src]).length := by simp; omega
      simp only [World.deref, hp]
      exact List.getElem?_set_self hlt2
    · have hlt2 : p < (w.heap ++ [src]).length := by simp; omega
      simp only [Count, World.Count, World.deref, hp]
      rw [List.getElem?_set_self hlt2]
      simp only [hcount]

/-- Witness of C3: the flat engine of `sampleWorld` (two vectors) merging the
location `"other"`, which the store resolves to a flat object of one vector. -/
theorem Merge_flat_source_witness :
    flatEngine.index_ = some 1 ∧ sampleWorld.heap[1]? = some flatObject
    ∧ flatObject.isBFIndex = true ∧ "other" ≠ flatEngine.location_
    ∧ sampleWorld.resolve "other" = some otherFlatObject ∧ otherFlatObject.isBFIndex = true
    ∧ otherFlatObject.GetRawIds.length ≤ otherFlatObject.Count
    ∧ ∃ w' obj', flatEngine.Merge sampleWorld "other" = Except.ok (Status.OK, flatEngine, w')
      ∧ w'.deref flatEngine.index_ = some obj'
      ∧ flatEngine.Count w' = Except.ok (flatObject.Count + otherFlatObject.Count)
      ∧ obj'.GetRawIds = flatObject.GetRawIds ++ otherFlatObject.GetRawIds
      ∧ (∀ i, i ∈ flatObject.GetRawIds ∨ i ∈ otherFlatObject.GetRawIds → i ∈ obj'.GetRawIds)
      ∧ w'.cache = sampleWorld.cache
      ∧ (∃ calls, w'.log = sampleWorld.log ++ calls
          ∧ calls.all (fun e => !e.isCacheInsert) = true) :=
  ⟨rfl, rfl, by decide, by decide, by decide, by decide, by decide,
    Merge_flat_source flatEngine sampleWorld "other" 1 flatObject otherFlatObject rfl rfl
      (by decide) (by decide) (by decide) (by decide) (by decide)⟩

/-- C6: for an engine holding a flat object `obj` and a recognized build type
(the factory is asked for index type `t`), `BuildIndex` returns a new engine at
the target location whose build type and current type are the original's build
type and whose index is a new object, the factory's empty object of type `t`
bulk-built by one `BuildAll` call from `obj.Count()` vectors, the raw vectors
and the raw ids of `obj`, with parameters `dim = Dimension()` and
`gpu_id = gpu_num`. The new engine has the same `Count()` and `Dimension()`.
The original engine record comes back as it was, its index object keeps its
contents, and heap (but for the new object), cache and store are unchanged. -/
theorem BuildIndex_from_flat (self : ExecutionEngineImpl) (w : World) (location : String)
    (blank : ExecutionEngineImpl) (p : Nat) (obj : VecIndex) (t : IndexType)
    (hp : self.index_ = some p) (hobj : w.heap[p]? = some obj) (hflat : obj.isBFIndex = true)
    (ht : self.build_type.indexType = some t) :
    ∃ built w',
      self.BuildIndex w location blank =
        Except.ok ({ blank with index_ := some w.heap.length, location_ := location,
                                build_type := self.build_type,
                                current_type := self.build_type }, self, w')
      ∧ built = (GetVecIndexFactory t).BuildAll obj.Count obj.GetRawVectors obj.GetRawIds
                  [("dim", Int.ofNat obj.Dimension), ("gpu_id", self.gpu_num)]
      ∧ w'.heap = w.heap ++ [built]
      ∧ w'.log = w.log ++ [Event.BuildAll w.heap.length obj.Count obj.GetRawVectors
                  obj.GetRawIds [("dim", Int.ofNat obj.Dimension), ("gpu_id", self.gpu_num)]]
      ∧ w'.deref (some w.heap.length) = some built
      ∧ built.Count = obj.Count ∧ built.Dimension = obj.Dimension ∧ built.type = t
      ∧ w'.deref self.index_ = some obj
      ∧ w'.cache = w.cache ∧ w'.disk = w.disk ∧ w'.config = w.config := by
  have hlt : p < w.heap.length := by
    by_contra hge
    rw [List.getElem?_eq_none (by omega)] at hobj
    cases hobj
  have hc : w.dynamic_pointer_cast_BFIndex (some p) = some p := by
    simp [World.dynamic_pointer_cast_BFIndex, World.deref, hobj, hflat]
  have hobj2 : ∀ x : VecIndex, (w.heap ++ [x])[p]? = some obj := by
    intro x
    rw [List.getElem?_append_left hlt]
    exact hobj
  refine ⟨(GetVecIndexFactory t).BuildAll obj.Count obj.GetRawVectors obj.GetRawIds
      [("dim", Int.ofNat obj.Dimension), ("gpu_id", self.gpu_num)],
    { w with heap := w.heap ++ [(GetVecIndexFactory t).BuildAll obj.Count obj.GetRawVectors
                obj.GetRawIds [("dim", Int.ofNat obj.Dimension), ("gpu_id", self.gpu_num)]],
             log := w.log ++ [Event.BuildAll w.heap.length obj.Count obj.GetRawVectors
                obj.GetRawIds [("dim", Int.ofNat obj.Dimension), ("gpu_id", self.gpu_num)]] },
    ?_, rfl, rfl, rfl, ?_, ?_, ?_, ?_, ?_, rfl, rfl, rfl⟩
  · cases hb : self.build_type <;> rw [hb] at ht <;> simp [EngineType.indexType] at ht <;>
      subst ht <;>
      simp [BuildIndex, hc, hb, CreatetVecIndex, World.alloc, Count, Dimension, World.Count,
        World.Dimension, World.GetRawVectors, World.GetRawIds, World.deref, hp, hobj2,
        World.BuildAll, ExecutionEngineImpl_index]
  · simp [World.deref]
  · simp [VecIndex.BuildAll, VecIndex.Count]
  · simp [VecIndex.BuildAll, VecIndex.Dimension, Config.get_with_default, List.lookup]
  · simp [VecIndex.BuildAll, GetVecIndexFactory]
  · simp only [World.deref, hp]
    exact hobj2 _

/-- Witness of C6: the flat engine of `sampleWorld`, whose build type is the
CPU inverted-file type. -/
theorem BuildIndex_from_flat_witness :
    flatEngine.index_ = some 1 ∧ sampleWorld.heap[1]? = some flatObject
    ∧ flatObject.isBFIndex = true
    ∧ flatEngine.build_type.indexType = some IndexType.FAISS_IVFFLAT_CPU
    ∧ ∃ built w',
      flatEngine.BuildIndex sampleWorld "target" blankEngine =
        Except.ok ({ blankEngine with index_ := some sampleWorld.heap.length,
                                      location_ := "target",
                                      build_type := flatEngine.build_type,
                                      current_type := flatEngine.build_type }, flatEngine, w')
      ∧ built = (GetVecIndexFactory IndexType.FAISS_IVFFLAT_CPU).BuildAll flatObject.Count
                  flatObject.GetRawVectors flatObject.GetRawIds
                  [("dim", Int.ofNat flatObject.Dimension), ("gpu_id", flatEngine.gpu_num)]
      ∧ w'.heap = sampleWorld.heap ++ [built]
      ∧ w'.log = sampleWorld.log ++ [Event.BuildAll sampleWorld.heap.length flatObject.Count
                  flatObject.GetRawVectors flatObject.GetRawIds
                  [("dim", Int.ofNat flatObject.Dimension), ("gpu_id", flatEngine.gpu_num)]]
      ∧ w'.deref (some sampleWorld.heap.length) = some built
      ∧ built.Count = flatObject.Count ∧ built.Dimension = flatObject.Dimension
      ∧ built.type = IndexType.FAISS_IVFFLAT_CPU
      ∧ w'.deref flatEngine.index_ = some flatObject
      ∧ w'.cache = sampleWorld.cache ∧ w'.disk = sampleWorld.disk
      ∧ w'.config = sampleWorld.config :=
  ⟨rfl, rfl, by decide, by decide,
    BuildIndex_from_flat flatEngine sampleWorld "target" blankEngine 1 flatObject
      IndexType.FAISS_IVFFLAT_CPU rfl rfl (by decide) (by decide)⟩

/-- C8: for an engine holding an index object `obj` (flat or not), `Serialize`
returns `Status::OK()` and stores the object at the engine's location. `Load` on an
engine with the same location, in the world `Serialize` left but with an empty
cache, then returns `Status::OK()` with the engine holding a new object of the same
contents, hence the same `Count()`, `Dimension()`, raw vectors and raw ids as
before `Serialize`; the cache holds that object under the location; and the
calls `Load` made are exactly: the cache lookup, one read of the store, one
cache insert, one load-duration observation, one load-size observation and one
throughput update. -/
theorem Serialize_Load_roundtrip (self other : ExecutionEngineImpl) (w : World)
    (start_time end_time : Int) (p : Nat) (obj : VecIndex)
    (hp : self.index_ = some p) (hobj : w.heap[p]? = some obj)
    (hloc : other.location_ = self.location_) :
    ∃ w1 w2 calls,
      self.Serialize w = Except.ok (Status.OK, self, w1)
      ∧ other.Load { w1 with cache := [] } start_time end_time =
          Except.ok (Status.OK, { other with index_ := some w.heap.length }, w2)
      ∧ w2.deref (some w.heap.length) = some obj
      ∧ ExecutionEngineImpl.Count { other with index_ := some w.heap.length } w2 = self.Count w
      ∧ ExecutionEngineImpl.Dimension { other with index_ := some w.heap.length } w2
          = self.Dimension w
      ∧ w2.GetRawVectors (some w.heap.length) = w.GetRawVectors self.index_
      ∧ w2.GetRawIds (some w.heap.length) = w.GetRawIds self.index_
      ∧ w2.cache.lookup self.location_ = some (some w.heap.length)
      ∧ w2.log = w1.log ++ calls
      ∧ calls = [Event.GetIndex self.location_, Event.read_index self.location_,
                 Event.InsertItem self.location_ (some w.heap.length),
                 Event.FaissDiskLoadDurationSecondsHistogramObserve (end_time - start_time),
                 Event.FaissDiskLoadSizeBytesHistogramObserve
                   (((obj.Count * obj.Dimension) % SIZE_T) * sizeof_float % SIZE_T),
                 Event.FaissDiskLoadIOSpeedGaugeSet
                   (((obj.Count * obj.Dimension) % SIZE_T) * sizeof_float % SIZE_T)
                   (end_time - start_time)]
      ∧ calls.countP Event.isLoadDuration = 1 ∧ calls.countP Event.isLoadSize = 1
      ∧ calls.countP Event.isLoadSpeed = 1 ∧ calls.countP Event.isStoreRead = 1
      ∧ calls.countP Event.isCacheInsert = 1 := by
  refine ⟨{ w with disk := (self.location_, obj) ::
                       w.disk.filter (fun kv => kv.1 != self.location_),
                   log := w.log ++ [Event.write_index (some p) self.location_] },
    { heap := w.heap ++ [obj], cache := [(self.location_, some w.heap.length)],
      disk := (self.location_, obj) :: w.disk.filter (fun kv => kv.1 != self.location_),
      config := w.config,
      log := (w.log ++ [Event.write_index (some p) self.location_]) ++
        [Event.GetIndex self.location_, Event.read_index self.location_,
         Event.InsertItem self.location_ (some w.heap.length),
         Event.FaissDiskLoadDurationSecondsHistogramObserve (end_time - start_time),
         Event.FaissDiskLoadSizeBytesHistogramObserve
           (((obj.Count * obj.Dimension) % SIZE_T) * sizeof_float % SIZE_T),
         Event.FaissDiskLoadIOSpeedGaugeSet
           (((obj.Count * obj.Dimension) % SIZE_T) * sizeof_float % SIZE_T)
           (end_time - start_time)] },
    _, ?_, ?_, ?_, ?_, ?_, ?_, ?_, ?_, rfl, rfl, ?_, ?_, ?_, ?_, ?_⟩
  · simp [Serialize, write_index, World.deref, hp, hobj]
  · simp [Load, CpuCacheMgr_GetIndex, read_index, World.emit, World.alloc, hloc, Cache,
      CpuCacheMgr_InsertItem, Size, Count, Dimension, World.Count, World.Dimension, World.deref,
      METRICS_MICROSECONDS]
  · simp [World.deref]
  · simp [Count, World.Count, World.deref, hp, hobj]
  · simp [Dimension, World.Dimension, World.deref, hp, hobj]
  · simp [World.GetRawVectors, World.deref, hp, hobj]
  · simp [World.GetRawIds, World.deref, hp, hobj]
  · simp [List.lookup]
  · simp [List.countP_cons, Event.isLoadDuration]
  · simp [List.countP_cons, Event.isLoadSize]
  · simp [List.countP_cons, Event.isLoadSpeed]
  · simp [List.countP_cons, Event.isStoreRead]
  · simp [List.countP_cons, Event.isCacheInsert]

/-- Witness of C8: the flat engine of `sampleWorld`, serialized and loaded
again. -/
theorem Serialize_Load_roundtrip_witness :
    flatEngine.index_ = some 1 ∧ sampleWorld.heap[1]? = some flatObject
    ∧ flatEngine.location_ = flatEngine.location_
    ∧ ∃ w1 w2 calls,
      flatEngine.Serialize sampleWorld = Except.ok (Status.OK, flatEngine, w1)
      ∧ flatEngine.Load { w1 with cache := [] } 100 250 =
          Except.ok (Status.OK, { flatEngine with index_ := some sampleWorld.heap.length }, w2)
      ∧ w2.deref (some sampleWorld.heap.length) = some flatObject
      ∧ ExecutionEngineImpl.Count { flatEngine with index_ := some sampleWorld.heap.length } w2
          = flatEngine.Count sampleWorld
      ∧ ExecutionEngineImpl.Dimension
          { flatEngine with index_ := some sampleWorld.heap.length } w2
          = flatEngine.Dimension sampleWorld
      ∧ w2.GetRawVectors (some sampleWorld.heap.length)
          = sampleWorld.GetRawVectors flatEngine.index_
      ∧ w2.GetRawIds (some sampleWorld.heap.length) = sampleWorld.GetRawIds flatEngine.index_
      ∧ w2.cache.lookup flatEngine.location_ = some (some sampleWorld.heap.length)
      ∧ w2.log = w1.log ++ calls
      ∧ calls = [Event.GetIndex flatEngine.location_, Event.read_index flatEngine.location_,
                 Event.InsertItem flatEngine.location_ (some sampleWorld.heap.length),
                 Event.FaissDiskLoadDurationSecondsHistogramObserve (250 - 100),
                 Event.FaissDiskLoadSizeBytesHistogramObserve
                   (((flatObject.Count * flatObject.Dimension) % SIZE_T) * sizeof_float % SIZE_T),
                 Event.FaissDiskLoadIOSpeedGaugeSet
                   (((flatObject.Count * flatObject.Dimension) % SIZE_T) * sizeof_float % SIZE_T)
                   (250 - 100)]
      ∧ calls.countP Event.isLoadDuration = 1 ∧ calls.countP Event.isLoadSize = 1
      ∧ calls.countP Event.isLoadSpeed = 1 ∧ calls.countP Event.isStoreRead = 1
      ∧ calls.countP Event.isCacheInsert = 1 :=
  ⟨rfl, rfl, rfl,
    Serialize_Load_roundtrip flatEngine flatEngine sampleWorld 100 250 1 flatObject rfl rfl rfl⟩

/-- The two multiplications of `Size()` in `size_t` arithmetic give the product
of the three factors reduced once. -/
theorem size_t_product (c d : Nat) :
    ((c * d) % SIZE_T) * sizeof_float % SIZE_T = (c * d * 4) % SIZE_T := by
  simp only [sizeof_float]
  rw [Nat.mul_mod, Nat.mod_mod, ← Nat.mul_mod]

/-- A flat object stays flat under `Add`, keeps its dimension and gains `n`
vectors. -/
theorem VecIndex.Add_flat (o : VecIndex) (n : Nat) (xdata : List float) (xids : List Int)
    (cfg : Config) (hf : o.isBFIndex = true) :
    (o.Add n xdata xids cfg).isBFIndex = true ∧ (o.Add n xdata xids cfg).dim = o.dim
    ∧ (o.Add n xdata xids cfg).ntotal = o.ntotal + n := by
  unfold VecIndex.Add
  rw [if_pos hf]
  exact ⟨hf, rfl, rfl⟩

/-- A sequence of `AddWithIds` calls on an engine that holds a flat object runs
to its end and leaves a flat object of the same dimension with the added
vectors counted. -/
theorem AddWithIds_seq_flat (self : ExecutionEngineImpl) (a : Nat)
    (hp : self.index_ = some a) (calls : List (Nat × List float × List Int)) :
    ∀ (w : World) (o : VecIndex), w.heap[a]? = some o → o.isBFIndex = true →
      ∃ w' o', AddWithIds_seq self w calls = Except.ok (self, w')
        ∧ w'.heap[a]? = some o' ∧ o'.isBFIndex = true ∧ o'.dim = o.dim
        ∧ o'.ntotal = o.ntotal + totalAdded calls := by
  induction calls with
  | nil =>
    intro w o ho hf
    exact ⟨w, o, rfl, ho, hf, rfl, by simp [totalAdded]⟩
  | cons c rest ih =>
    intro w o ho hf
    obtain ⟨n, xdata, xids⟩ := c
    have hlt : a < w.heap.length := by
      by_contra hge
      rw [List.getElem?_eq_none (by omega)] at ho
      cases ho
    obtain ⟨hf1, hd1, hn1⟩ := VecIndex.Add_flat o n xdata xids [("dim", Int.ofNat self.dim)] hf
    obtain ⟨w', o', hrun, ho', hf', hd', hn'⟩ :=
      ih { w with heap := w.heap.set a (o.Add n xdata xids [("dim", Int.ofNat self.dim)]),
                  log := w.log ++ [Event.Add a n xdata xids [("dim", Int.ofNat self.dim)]] }
        (o.Add n xdata xids [("dim", Int.ofNat self.dim)])
        (List.getElem?_set_self hlt) hf1
    refine ⟨w', o', ?_, ho', hf', by rw [hd', hd1], ?_⟩
    · simp only [AddWithIds_seq, AddWithIds_eq self w n xdata xids a o hp ho]
      exact hrun
    · rw [hn', hn1]
      simp [totalAdded]
      omega

/-- What the constructor of a fresh engine returns: the engine holds a new,
empty flat object sized to `dimension`. -/
theorem ExecutionEngineImpl_dimension_eq (blank : ExecutionEngineImpl) (w : World)
    (dimension : Nat) (location : String) (type : EngineType) :
    ExecutionEngineImpl_dimension blank w dimension location type =
      Except.ok ({ blank with index_ := some w.heap.length, location_ := location,
                              dim := dimension, build_type := type,
                              current_type := EngineType.FAISS_IDMAP },
                 { w with heap := w.heap ++
                     [(GetVecIndexFactory IndexType.FAISS_IDMAP).Build dimension] }) := by
  simp [ExecutionEngineImpl_dimension, CreatetVecIndex, World.alloc, World.Build]

/-- Sizes of a fresh engine after any sequence of `AddWithIds` calls. -/
theorem fresh_engine_sizes (blank : ExecutionEngineImpl) (w : World) (dimension : Nat)
    (location : String) (type : EngineType) (calls : List (Nat × List float × List Int)) :
    ∃ e w1 w', ExecutionEngineImpl_dimension blank w dimension location type = Except.ok (e, w1)
      ∧ AddWithIds_seq e w1 calls = Except.ok (e, w')
      ∧ e.Count w' = Except.ok (totalAdded calls)
      ∧ e.Dimension w' = Except.ok dimension
      ∧ e.Size w' = Except.ok ((totalAdded calls * dimension * 4) % SIZE_T)
      ∧ e.PhysicalSize w' = Except.ok ((totalAdded calls * dimension * 4) % SIZE_T) := by
  have hfresh : (w.heap ++ [(GetVecIndexFactory IndexType.FAISS_IDMAP).Build dimension])[
      w.heap.length]? = some ((GetVecIndexFactory IndexType.FAISS_IDMAP).Build dimension) := by
    simp
  obtain ⟨w', o', hrun, ho', _, hd', hn'⟩ :=
    AddWithIds_seq_flat
      { blank with index_ := some w.heap.length, location_ := location, dim := dimension,
                   build_type := type, current_type := EngineType.FAISS_IDMAP }
      w.heap.length rfl calls
      { w with heap := w.heap ++ [(GetVecIndexFactory IndexType.FAISS_IDMAP).Build dimension] }
      ((GetVecIndexFactory IndexType.FAISS_IDMAP).Build dimension) hfresh rfl
  have hd : o'.dim = dimension := by rw [hd']; rfl
  have hn : o'.ntotal = totalAdded calls := by
    rw [hn']
    simp [GetVecIndexFactory, VecIndex.Build]
  refine ⟨_, _, w', ExecutionEngineImpl_dimension_eq blank w dimension location type, hrun,
    ?_, ?_, ?_, ?_⟩
  · simp [Count, World.Count, World.deref, ho', VecIndex.Count, hn]
  · simp [Dimension, World.Dimension, World.deref, ho', VecIndex.Dimension, hd]
  · simp only [Size, Count, Dimension, World.Count, World.Dimension, World.deref, ho',
      VecIndex.Count, VecIndex.Dimension, hn, hd, size_t_product]
  · simp only [PhysicalSize, Count, Dimension, World.Count, World.Dimension, World.deref, ho',
      VecIndex.Count, VecIndex.Dimension, hn, hd, size_t_product]

/-- C9: a freshly constructed engine, after any sequence of `AddWithIds` calls
(the empty one included), holds as many vectors as the calls added, has the
dimension it was constructed with, and `Size()` and `PhysicalSize()` both
return `Count() * Dimension() * 4` reduced modulo `2 ^ 64` (`size_t`
arithmetic). In particular `Size()` is 0 on the fresh engine, and after adding
two vectors to an engine of dimension 4, in two calls or in one, `Count()` is 2
and `Size()` is 32. -/
theorem Size_eq_Count_mul_Dimension_mul_4 (blank : ExecutionEngineImpl) (w : World)
    (dimension : Nat) (location : String) (type : EngineType)
    (calls : List (Nat × List float × List Int)) :
    (∃ e w1 w' c d,
      ExecutionEngineImpl_dimension blank w dimension location type = Except.ok (e, w1)
      ∧ AddWithIds_seq e w1 calls = Except.ok (e, w')
      ∧ e.Count w' = Except.ok c ∧ c = totalAdded calls
      ∧ e.Dimension w' = Except.ok d ∧ d = dimension
      ∧ e.Size w' = Except.ok ((c * d * 4) % SIZE_T)
      ∧ e.PhysicalSize w' = e.Size w')
    ∧ (∃ e w1,
      ExecutionEngineImpl_dimension blank w dimension location type = Except.ok (e, w1)
      ∧ e.Count w1 = Except.ok 0 ∧ e.Size w1 = Except.ok 0 ∧ e.PhysicalSize w1 = Except.ok 0)
    ∧ (∀ (v1 v2 : List float) (ids1 ids2 : List Int), ∃ e w1 w',
      ExecutionEngineImpl_dimension blank w 4 location type = Except.ok (e, w1)
      ∧ AddWithIds_seq e w1 [(1, v1, ids1), (1, v2, ids2)] = Except.ok (e, w')
      ∧ e.Count w' = Except.ok 2 ∧ e.Size w' = Except.ok 32
      ∧ e.PhysicalSize w' = Except.ok 32)
    ∧ (∀ (xdata : List float) (xids : List Int), ∃ e w1 w',
      ExecutionEngineImpl_dimension blank w 4 location type = Except.ok (e, w1)
      ∧ AddWithIds_seq e w1 [(2, xdata, xids)] = Except.ok (e, w')
      ∧ e.Count w' = Except.ok 2 ∧ e.Size w' = Except.ok 32
      ∧ e.PhysicalSize w' = Except.ok 32) := by
  refine ⟨?_, ?_, ?_, ?_⟩
  · obtain ⟨e, w1, w', hc, hrun, hcount, hdim, hsize, hphys⟩ :=
      fresh_engine_sizes blank w dimension location type calls
    exact ⟨e, w1, w', _, _, hc, hrun, hcount, rfl, hdim, rfl, hsize, by rw [hphys, hsize]⟩
  · obtain ⟨e, w1, w', hc, hrun, hcount, _, hsize, hphys⟩ :=
      fresh_engine_sizes blank w dimension location type []
    simp only [AddWithIds_seq, Except.ok.injEq, Prod.mk.injEq, true_and] at hrun
    subst hrun
    refine ⟨e, w1, hc, ?_, ?_, ?_⟩
    · simpa [totalAdded] using hcount
    · simpa [totalAdded] using hsize
    · simpa [totalAdded] using hphys
  · intro v1 v2 ids1 ids2
    obtain ⟨e, w1, w', hc, hrun, hcount, _, hsize, hphys⟩ :=
      fresh_engine_sizes blank w 4 location type [(1, v1, ids1), (1, v2, ids2)]
    refine ⟨e, w1, w', hc, hrun, ?_, ?_, ?_⟩
    · simpa [totalAdded] using hcount
    · simpa [totalAdded, SIZE_T] using hsize
    · simpa [totalAdded, SIZE_T] using hphys
  · intro xdata xids
    obtain ⟨e, w1, w', hc, hrun, hcount, _, hsize, hphys⟩ :=
      fresh_engine_sizes blank w 4 location type [(2, xdata, xids)]
    refine ⟨e, w1, w', hc, hrun, ?_, ?_, ?_⟩
    · simpa [totalAdded] using hcount
    · simpa [totalAdded, SIZE_T] using hsize
    · simpa [totalAdded, SIZE_T] using hphys

end Engine
